import Mathlib

/-!
Shallow embedding of the wgowut package (src/builder.go): the `Options`
record, the shared `setStyle` routine, and the widget make/format
operations the claims speak about.  Widget state is modelled from the
spec's contract for the external toolkit ("a component accepts style
mutations and exposes getters that return the last-set value"); every
operation additionally records the toolkit calls it makes, in order, so
that claims about which setter calls happen can be stated directly.
-/

namespace Wgowut

/-- Model of the wgowut `Enable` enumeration (builder.go lines 84-90). -/
inductive Enable where
  | enableNil
  | enableTrue
  | enableFalse
deriving DecidableEq, Repr

/-- Model of the wgowut `Layout` enumeration (builder.go lines 92-99). -/
inductive Layout where
  | layoutNil
  | layoutNatural
  | layoutHorizontal
  | layoutVertical
deriving DecidableEq, Repr

/-- Model of the gwu layout constants (`gwu.LayoutNatural` etc.) that
`MakeTabPanel` passes to `SetLayout`. -/
inductive GLayout where
  | natural
  | horizontal
  | vertical
deriving DecidableEq, Repr

/-- The reserved sizing token: `FullWidth = "Full"` (builder.go line 80). -/
def FullWidth : String := "Full"

/-- The reserved sizing token: `FullHeight = "Full"` (builder.go line 81). -/
def FullHeight : String := "Full"

/-- Model of the wgowut `Options` struct (builder.go lines 108-127).
Go zero values are the field defaults: 0, "", false, and the nil
enumeration members. -/
structure Options where
  rows : Int := 0
  cols : Int := 0
  cellPadding : Int := 0
  hAlign : String := ""
  vAlign : String := ""
  whiteSpace : String := ""
  borderWidth : Int := 0
  borderStyle : String := ""
  borderColor : String := ""
  layout : Layout := Layout.layoutNil
  multi : Bool := false
  width : String := ""
  height : String := ""
  fontSize : String := ""
  color : String := ""
  background : String := ""
  colSpan : Int := 0
  rowSpan : Int := 0
  enable : Enable := Enable.enableNil
  readOnly : Bool := false
deriving DecidableEq, Repr

/-- Modelled from the spec: the external toolkit's style object.  The
spec's contract for the widget collaborator is that it "accepts style
mutations and exposes getters that return the last-set value"; every
attribute starts at the built-in default (unset, rendered here as `""`
for string attributes and `none` for the border triple). -/
structure Style where
  border : Option (Int × String × String) := none
  width : String := ""
  height : String := ""
  color : String := ""
  background : String := ""
  whiteSpace : String := ""
  fontSize : String := ""
  padding : String := ""
deriving DecidableEq, Repr

def Style.setBorder2 (s : Style) (w : Int) (st c : String) : Style :=
  { s with border := some (w, st, c) }

/-- Modelled from the spec and the repo's test (`checkStyle`): full-width
sizing is observable as the width attribute "100%". -/
def Style.setFullWidth (s : Style) : Style :=
  { s with width := "100%" }

def Style.setWidth (s : Style) (v : String) : Style :=
  { s with width := v }

/-- Modelled from the spec and the repo's test: full-height sizing is
observable as the height attribute "100%". -/
def Style.setFullHeight (s : Style) : Style :=
  { s with height := "100%" }

def Style.setHeight (s : Style) (v : String) : Style :=
  { s with height := v }

def Style.setColor (s : Style) (v : String) : Style :=
  { s with color := v }

def Style.setBackground (s : Style) (v : String) : Style :=
  { s with background := v }

def Style.setWhiteSpace (s : Style) (v : String) : Style :=
  { s with whiteSpace := v }

def Style.setFontSize (s : Style) (v : String) : Style :=
  { s with fontSize := v }

def Style.setPadding (s : Style) (v : String) : Style :=
  { s with padding := v }

/-- One toolkit call (or the stderr diagnostic) made by a wgowut
operation; operations record the list of these in program order. -/
inductive Call where
  | setBorder2 (w : Int) (st c : String)
  | borderWarn
  | setFullWidth
  | setWidth (v : String)
  | setFullHeight
  | setHeight (v : String)
  | setColor (v : String)
  | setBackground (v : String)
  | setWhiteSpace (v : String)
  | setFontSize (v : String)
  | setPadding (v : String)
  | setHAlign (v : String)
  | setVAlign (v : String)
  | setCellPadding (n : Int)
  | ensureSize (r c : Int)
  | setRows (n : Int)
  | setCols (n : Int)
  | setMulti (b : Bool)
  | setSelected (i : Int) (b : Bool)
  | setEnabled (b : Bool)
  | setReadOnly (b : Bool)
  | setColSpan (n : Int)
  | setRowSpan (n : Int)
  | setLayout (l : GLayout)
deriving DecidableEq, Repr

def Call.isSetLayoutCall : Call → Bool
  | Call.setLayout _ => true
  | _ => false

def Call.isSetSelectedCall : Call → Bool
  | Call.setSelected _ _ => true
  | _ => false

def Call.isSetEnabledCall : Call → Bool
  | Call.setEnabled _ => true
  | _ => false

/-- Translation of `setStyle` (builder.go lines 156-186).  Returns the
updated style together with the toolkit calls made (the `borderWarn`
entry stands for the `fmt.Fprintf(os.Stderr, ...)` diagnostic).  Note
the source's height handling: `SetFullHeight` is called when the height
equals the reserved token AND again whenever the height is any non-empty
string; `SetHeight` is never called. -/
def setStyle (style : Style) (options : Options) : Style × List Call :=
  let s1 : Style × List Call :=
    if options.borderWidth ≠ 0 ∨ options.borderStyle ≠ "" ∨ options.borderColor ≠ "" then
      if options.borderWidth ≠ 0 ∧ options.borderStyle ≠ "" then
        (style.setBorder2 options.borderWidth options.borderStyle options.borderColor,
          [Call.setBorder2 options.borderWidth options.borderStyle options.borderColor])
      else
        (style, [Call.borderWarn])
    else
      (style, [])
  let s2 : Style × List Call :=
    if options.width = FullWidth then
      (s1.1.setFullWidth, s1.2 ++ [Call.setFullWidth])
    else if options.width ≠ "" then
      (s1.1.setWidth options.width, s1.2 ++ [Call.setWidth options.width])
    else
      s1
  let s3 : Style × List Call :=
    if options.height = FullHeight then
      (s2.1.setFullHeight, s2.2 ++ [Call.setFullHeight])
    else
      s2
  let s4 : Style × List Call :=
    if options.height ≠ "" then
      (s3.1.setFullHeight, s3.2 ++ [Call.setFullHeight])
    else
      s3
  ((((s4.1.setColor options.color).setBackground options.background).setWhiteSpace
      options.whiteSpace).setFontSize options.fontSize,
    s4.2 ++ [Call.setColor options.color, Call.setBackground options.background,
      Call.setWhiteSpace options.whiteSpace, Call.setFontSize options.fontSize])

/-- Modelled from the spec: a gwu table as seen through its getters.
`ensureSize` grows the table dimensions to at least the given values;
all other attributes are last-set values with the built-in defaults
shown. -/
structure Table where
  rows : Int := 0
  cols : Int := 0
  cellPadding : Int := 0
  hAlign : String := ""
  vAlign : String := ""
  style : Style := {}
deriving DecidableEq, Repr

def Table.ensureSize (t : Table) (r c : Int) : Table :=
  { t with rows := max t.rows r, cols := max t.cols c }

/-- Translation of `MakeTable` (builder.go lines 137-154). -/
def makeTable (options : Options) : Table × List Call :=
  let table : Table := {}
  let table := table.ensureSize options.rows options.cols
  let table := { table with cellPadding := options.cellPadding }
  let h : Table × List Call :=
    if options.hAlign ≠ "" then
      ({ table with hAlign := options.hAlign }, [Call.setHAlign options.hAlign])
    else
      (table, [])
  let v : Table × List Call :=
    if options.vAlign ≠ "" then
      ({ h.1 with vAlign := options.vAlign }, h.2 ++ [Call.setVAlign options.vAlign])
    else
      h
  let st := setStyle v.1.style options
  ({ v.1 with style := st.1 },
    [Call.ensureSize options.rows options.cols, Call.setCellPadding options.cellPadding]
      ++ v.2 ++ st.2)

/-- Modelled from the spec and the repo's test: one table cell as touched
by `FormatTableCell`.  A span that has never been set (or was set with a
value below 2, which the toolkit treats as clearing it — the repo's own
test asserts the cleared span reads back as the default -1) is `none`. -/
structure Cell where
  style : Style := {}
  hAlign : String := ""
  vAlign : String := ""
  colSpan : Option Int := none
  rowSpan : Option Int := none
deriving DecidableEq, Repr

def Cell.setColSpanCell (cell : Cell) (n : Int) : Cell :=
  if n < 2 then { cell with colSpan := none } else { cell with colSpan := some n }

def Cell.setRowSpanCell (cell : Cell) (n : Int) : Cell :=
  if n < 2 then { cell with rowSpan := none } else { cell with rowSpan := some n }

/-- Translation of `FormatTableCell` (builder.go lines 191-209), acting
on the one cell `table.CellFmt(row, col)` addresses.  `strconv.Itoa` is
`toString` on the integer. -/
def formatTableCell (cell : Cell) (options : Options) : Cell × List Call :=
  let padding := toString options.cellPadding
  let cell := { cell with style := cell.style.setPadding padding }
  let h : Cell × List Call :=
    if options.hAlign ≠ "" then
      ({ cell with hAlign := options.hAlign }, [Call.setHAlign options.hAlign])
    else
      (cell, [])
  let v : Cell × List Call :=
    if options.vAlign ≠ "" then
      ({ h.1 with vAlign := options.vAlign }, h.2 ++ [Call.setVAlign options.vAlign])
    else
      h
  let cSpan := v.1.setColSpanCell options.colSpan
  let rSpan := cSpan.setRowSpanCell options.rowSpan
  let st := setStyle rSpan.style options
  ({ rSpan with style := st.1 },
    [Call.setPadding padding] ++ v.2
      ++ [Call.setColSpan options.colSpan, Call.setRowSpan options.rowSpan] ++ st.2)

/-- Modelled from the spec: a gwu list box.  `rowsInit` is the toolkit's
internal default row count; the wgowut source's own comment records that
it differs from 0 ("technically this zero value doesn't match the gwu
default"), and no theorem below depends on its exact value because
`MakeListBox` always overwrites it. -/
def rowsInit : Int := 1

structure ListBox where
  values : List String := []
  rows : Int := rowsInit
  multi : Bool := false
  selectedIdxs : List Int := []
  enabled : Bool := true
  style : Style := {}
deriving DecidableEq, Repr

/-- Modelled from the spec: `gwu.NewListBox(values)`. -/
def newListBox (values : List String) : ListBox :=
  { values := values }

def ListBox.setSelectedLb (lb : ListBox) (i : Int) (b : Bool) : ListBox :=
  if b then { lb with selectedIdxs := i :: lb.selectedIdxs }
  else { lb with selectedIdxs := lb.selectedIdxs.filter (fun j => j ≠ i) }

/-- Translation of `MakeListBox` (builder.go lines 216-239). -/
def makeListBox (values : List String) (options : Options) : ListBox × List Call :=
  let lb := newListBox values
  let lb := { lb with rows := options.rows }
  let c1 := [Call.setRows options.rows]
  let m : ListBox × List Call :=
    if options.multi then
      ({ lb with multi := true }, [Call.setMulti true])
    else
      (lb, [])
  let sel : ListBox × List Call :=
    if values.length ≠ 0 then
      (m.1.setSelectedLb 0 true, m.2 ++ [Call.setSelected 0 true])
    else
      m
  let en : ListBox × List Call :=
    match options.enable with
    | Enable.enableTrue => ({ sel.1 with enabled := true }, sel.2 ++ [Call.setEnabled true])
    | Enable.enableFalse => ({ sel.1 with enabled := false }, sel.2 ++ [Call.setEnabled false])
    | Enable.enableNil => sel
  let st := setStyle en.1.style options
  ({ en.1 with style := st.1 }, c1 ++ en.2 ++ st.2)

/-- Modelled from the spec: a gwu text box.  The toolkit-internal default
row and column counts are irrelevant to the theorems below, which only
compare against the constructed value. -/
structure TextBox where
  text : String := ""
  rows : Int := 1
  cols : Int := 20
  enabled : Bool := true
  readOnly : Bool := false
  style : Style := {}
deriving DecidableEq, Repr

/-- Modelled from the spec: `gwu.NewTextBox(text)`. -/
def newTextBox (text : String) : TextBox :=
  { text := text }

/-- Translation of `MakeTextBox` (builder.go lines 245-266). -/
def makeTextBox (text : String) (options : Options) : TextBox × List Call :=
  let tb := newTextBox text
  let r : TextBox × List Call :=
    if options.rows ≠ 0 then
      ({ tb with rows := options.rows }, [Call.setRows options.rows])
    else
      (tb, [])
  let c : TextBox × List Call :=
    if options.cols ≠ 0 then
      ({ r.1 with cols := options.cols }, r.2 ++ [Call.setCols options.cols])
    else
      r
  let en : TextBox × List Call :=
    match options.enable with
    | Enable.enableTrue => ({ c.1 with enabled := true }, c.2 ++ [Call.setEnabled true])
    | Enable.enableFalse => ({ c.1 with enabled := false }, c.2 ++ [Call.setEnabled false])
    | Enable.enableNil => c
  let ro := { en.1 with readOnly := options.readOnly }
  let st := setStyle ro.style options
  ({ ro with style := st.1 },
    en.2 ++ [Call.setReadOnly options.readOnly] ++ st.2)

/-- Which gwu panel constructor `MakePanel` ran: `plain` is the default
`gwu.NewPanel()`, the others the orientation-specific constructors. -/
inductive PanelCtor where
  | plain
  | natural
  | horizontal
  | vertical
deriving DecidableEq, Repr

structure Panel where
  ctor : PanelCtor := PanelCtor.plain
  cellPadding : Int := 0
  hAlign : String := ""
  vAlign : String := ""
  style : Style := {}
deriving DecidableEq, Repr

/-- Translation of `MakePanel` (builder.go lines 314-340). -/
def makePanel (options : Options) : Panel × List Call :=
  let panel : Panel :=
    match options.layout with
    | Layout.layoutNatural => { ctor := PanelCtor.natural }
    | Layout.layoutHorizontal => { ctor := PanelCtor.horizontal }
    | Layout.layoutVertical => { ctor := PanelCtor.vertical }
    | Layout.layoutNil => { ctor := PanelCtor.plain }
  let panel := { panel with cellPadding := options.cellPadding }
  let h : Panel × List Call :=
    if options.hAlign ≠ "" then
      ({ panel with hAlign := options.hAlign }, [Call.setHAlign options.hAlign])
    else
      (panel, [])
  let v : Panel × List Call :=
    if options.vAlign ≠ "" then
      ({ h.1 with vAlign := options.vAlign }, h.2 ++ [Call.setVAlign options.vAlign])
    else
      h
  let st := setStyle v.1.style options
  ({ v.1 with style := st.1 },
    [Call.setCellPadding options.cellPadding] ++ v.2 ++ st.2)

/-- Modelled from the spec: a gwu tab panel.  `tabPanelLayoutInit` is the
toolkit's internal default content layout; no theorem depends on its
exact value, only on whether `MakeTabPanel` changed it. -/
def tabPanelLayoutInit : GLayout := GLayout.vertical

structure TabPanel where
  layout : GLayout := tabPanelLayoutInit
  cellPadding : Int := 0
  hAlign : String := ""
  vAlign : String := ""
  style : Style := {}
deriving DecidableEq, Repr

/-- Translation of `MakeTabPanel` (builder.go lines 367-392). -/
def makeTabPanel (options : Options) : TabPanel × List Call :=
  let tabPanel : TabPanel := {}
  let t : TabPanel × List Call :=
    match options.layout with
    | Layout.layoutNatural =>
      ({ tabPanel with layout := GLayout.natural }, [Call.setLayout GLayout.natural])
    | Layout.layoutHorizontal =>
      ({ tabPanel with layout := GLayout.horizontal }, [Call.setLayout GLayout.horizontal])
    | Layout.layoutVertical =>
      ({ tabPanel with layout := GLayout.vertical }, [Call.setLayout GLayout.vertical])
    | Layout.layoutNil => (tabPanel, [])
  let t2 := { t.1 with cellPadding := options.cellPadding }
  let h : TabPanel × List Call :=
    if options.hAlign ≠ "" then
      ({ t2 with hAlign := options.hAlign }, t.2 ++ [Call.setCellPadding options.cellPadding, Call.setHAlign options.hAlign])
    else
      (t2, t.2 ++ [Call.setCellPadding options.cellPadding])
  let v : TabPanel × List Call :=
    if options.vAlign ≠ "" then
      ({ h.1 with vAlign := options.vAlign }, h.2 ++ [Call.setVAlign options.vAlign])
    else
      h
  let st := setStyle v.1.style options
  ({ v.1 with style := st.1 }, v.2 ++ st.2)

/-! Characterization lemmas: closed forms for each operation's resulting
widget state and call trace, proved once from the translations and shared
by the claim theorems below. -/

theorem setStyle_fst_eq (s : Style) (o : Options) :
    (setStyle s o).1 =
      { border := if o.borderWidth ≠ 0 ∧ o.borderStyle ≠ "" then
            some (o.borderWidth, o.borderStyle, o.borderColor)
          else s.border,
        width := if o.width = FullWidth then "100%"
          else if o.width ≠ "" then o.width else s.width,
        height := if o.height ≠ "" then "100%" else s.height,
        color := o.color,
        background := o.background,
        whiteSpace := o.whiteSpace,
        fontSize := o.fontSize,
        padding := s.padding } := by
  unfold setStyle
  simp only [Style.setBorder2, Style.setFullWidth, Style.setWidth, Style.setFullHeight,
    Style.setColor, Style.setBackground, Style.setWhiteSpace, Style.setFontSize]
  split_ifs <;> simp_all [FullWidth, FullHeight]

theorem setStyle_snd_eq (s : Style) (o : Options) :
    (setStyle s o).2 =
      (if o.borderWidth ≠ 0 ∨ o.borderStyle ≠ "" ∨ o.borderColor ≠ "" then
        if o.borderWidth ≠ 0 ∧ o.borderStyle ≠ "" then
          [Call.setBorder2 o.borderWidth o.borderStyle o.borderColor]
        else [Call.borderWarn]
      else []) ++
      (if o.width = FullWidth then [Call.setFullWidth]
        else if o.width ≠ "" then [Call.setWidth o.width] else []) ++
      (if o.height = FullHeight then [Call.setFullHeight] else []) ++
      (if o.height ≠ "" then [Call.setFullHeight] else []) ++
      [Call.setColor o.color, Call.setBackground o.background,
        Call.setWhiteSpace o.whiteSpace, Call.setFontSize o.fontSize] := by
  unfold setStyle
  split_ifs <;> simp_all

theorem setRows_not_in_style_calls (s : Style) (o : Options) (n : Int) :
    Call.setRows n ∉ (setStyle s o).2 := by
  rw [setStyle_snd_eq]
  split_ifs <;> simp_all

theorem setCols_not_in_style_calls (s : Style) (o : Options) (n : Int) :
    Call.setCols n ∉ (setStyle s o).2 := by
  rw [setStyle_snd_eq]
  split_ifs <;> simp_all

theorem setColSpan_not_in_style_calls (s : Style) (o : Options) (n : Int) :
    Call.setColSpan n ∉ (setStyle s o).2 := by
  rw [setStyle_snd_eq]
  split_ifs <;> simp_all

theorem setRowSpan_not_in_style_calls (s : Style) (o : Options) (n : Int) :
    Call.setRowSpan n ∉ (setStyle s o).2 := by
  rw [setStyle_snd_eq]
  split_ifs <;> simp_all

theorem style_calls_no_setEnabled (s : Style) (o : Options) :
    (setStyle s o).2.countP Call.isSetEnabledCall = 0 := by
  rw [setStyle_snd_eq]
  split_ifs <;> simp_all [Call.isSetEnabledCall]

theorem style_calls_no_setSelected (s : Style) (o : Options) :
    (setStyle s o).2.countP Call.isSetSelectedCall = 0 := by
  rw [setStyle_snd_eq]
  split_ifs <;> simp_all [Call.isSetSelectedCall]

theorem style_calls_no_setLayout (s : Style) (o : Options) :
    (setStyle s o).2.countP Call.isSetLayoutCall = 0 := by
  rw [setStyle_snd_eq]
  split_ifs <;> simp_all [Call.isSetLayoutCall]

theorem makeTextBox_fst_eq (text : String) (o : Options) :
    (makeTextBox text o).1 =
      { newTextBox text with
        rows := if o.rows ≠ 0 then o.rows else (newTextBox text).rows,
        cols := if o.cols ≠ 0 then o.cols else (newTextBox text).cols,
        enabled := if o.enable = Enable.enableTrue then true
          else if o.enable = Enable.enableFalse then false
          else (newTextBox text).enabled,
        readOnly := o.readOnly,
        style := (setStyle (newTextBox text).style o).1 } := by
  unfold makeTextBox
  rcases o.enable <;> split_ifs <;> simp_all [newTextBox]

theorem makeTextBox_snd_eq (text : String) (o : Options) :
    (makeTextBox text o).2 =
      (if o.rows ≠ 0 then [Call.setRows o.rows] else []) ++
      (if o.cols ≠ 0 then [Call.setCols o.cols] else []) ++
      (match o.enable with
        | Enable.enableTrue => [Call.setEnabled true]
        | Enable.enableFalse => [Call.setEnabled false]
        | Enable.enableNil => []) ++
      [Call.setReadOnly o.readOnly] ++
      (setStyle (newTextBox text).style o).2 := by
  unfold makeTextBox
  rcases o.enable <;> split_ifs <;> simp_all [newTextBox]

theorem makeListBox_fst_eq (values : List String) (o : Options) :
    (makeListBox values o).1 =
      { newListBox values with
        rows := o.rows,
        multi := if o.multi then true else (newListBox values).multi,
        selectedIdxs := if values.length ≠ 0 then [(0 : Int)] else [],
        enabled := if o.enable = Enable.enableTrue then true
          else if o.enable = Enable.enableFalse then false
          else (newListBox values).enabled,
        style := (setStyle (newListBox values).style o).1 } := by
  unfold makeListBox
  rcases o.enable <;> split_ifs <;>
    simp_all [newListBox, ListBox.setSelectedLb]

theorem makeListBox_snd_eq (values : List String) (o : Options) :
    (makeListBox values o).2 =
      [Call.setRows o.rows] ++
      (if o.multi then [Call.setMulti true] else []) ++
      (if values.length ≠ 0 then [Call.setSelected 0 true] else []) ++
      (match o.enable with
        | Enable.enableTrue => [Call.setEnabled true]
        | Enable.enableFalse => [Call.setEnabled false]
        | Enable.enableNil => []) ++
      (setStyle (newListBox values).style o).2 := by
  unfold makeListBox
  rcases o.enable <;> split_ifs <;>
    simp_all [newListBox, ListBox.setSelectedLb]

theorem formatTableCell_fst_eq (cell : Cell) (o : Options) :
    (formatTableCell cell o).1 =
      { style := (setStyle (cell.style.setPadding (toString o.cellPadding)) o).1,
        hAlign := if o.hAlign ≠ "" then o.hAlign else cell.hAlign,
        vAlign := if o.vAlign ≠ "" then o.vAlign else cell.vAlign,
        colSpan := if o.colSpan < 2 then none else some o.colSpan,
        rowSpan := if o.rowSpan < 2 then none else some o.rowSpan } := by
  unfold formatTableCell
  simp only [Cell.setColSpanCell, Cell.setRowSpanCell]
  split_ifs <;> simp_all

theorem formatTableCell_snd_eq (cell : Cell) (o : Options) :
    (formatTableCell cell o).2 =
      [Call.setPadding (toString o.cellPadding)] ++
      (if o.hAlign ≠ "" then [Call.setHAlign o.hAlign] else []) ++
      (if o.vAlign ≠ "" then [Call.setVAlign o.vAlign] else []) ++
      [Call.setColSpan o.colSpan, Call.setRowSpan o.rowSpan] ++
      (setStyle (cell.style.setPadding (toString o.cellPadding)) o).2 := by
  unfold formatTableCell
  simp only [Cell.setColSpanCell, Cell.setRowSpanCell]
  split_ifs <;> simp_all

theorem makePanel_fst_eq (o : Options) :
    (makePanel o).1 =
      { ctor := match o.layout with
          | Layout.layoutNatural => PanelCtor.natural
          | Layout.layoutHorizontal => PanelCtor.horizontal
          | Layout.layoutVertical => PanelCtor.vertical
          | Layout.layoutNil => PanelCtor.plain,
        cellPadding := o.cellPadding,
        hAlign := if o.hAlign ≠ "" then o.hAlign else "",
        vAlign := if o.vAlign ≠ "" then o.vAlign else "",
        style := (setStyle {} o).1 } := by
  unfold makePanel
  rcases o.layout <;> split_ifs <;> simp_all

theorem makePanel_snd_eq (o : Options) :
    (makePanel o).2 =
      [Call.setCellPadding o.cellPadding] ++
      (if o.hAlign ≠ "" then [Call.setHAlign o.hAlign] else []) ++
      (if o.vAlign ≠ "" then [Call.setVAlign o.vAlign] else []) ++
      (setStyle {} o).2 := by
  unfold makePanel
  rcases o.layout <;> split_ifs <;> simp_all

theorem makeTabPanel_fst_eq (o : Options) :
    (makeTabPanel o).1 =
      { layout := match o.layout with
          | Layout.layoutNatural => GLayout.natural
          | Layout.layoutHorizontal => GLayout.horizontal
          | Layout.layoutVertical => GLayout.vertical
          | Layout.layoutNil => tabPanelLayoutInit,
        cellPadding := o.cellPadding,
        hAlign := if o.hAlign ≠ "" then o.hAlign else "",
        vAlign := if o.vAlign ≠ "" then o.vAlign else "",
        style := (setStyle {} o).1 } := by
  unfold makeTabPanel
  rcases o.layout <;> split_ifs <;> simp_all

theorem makeTabPanel_snd_eq (o : Options) :
    (makeTabPanel o).2 =
      (match o.layout with
        | Layout.layoutNatural => [Call.setLayout GLayout.natural]
        | Layout.layoutHorizontal => [Call.setLayout GLayout.horizontal]
        | Layout.layoutVertical => [Call.setLayout GLayout.vertical]
        | Layout.layoutNil => []) ++
      [Call.setCellPadding o.cellPadding] ++
      (if o.hAlign ≠ "" then [Call.setHAlign o.hAlign] else []) ++
      (if o.vAlign ≠ "" then [Call.setVAlign o.vAlign] else []) ++
      (setStyle {} o).2 := by
  unfold makeTabPanel
  rcases o.layout <;> split_ifs <;> simp_all

/-- Claim C1, counterexample: the claim says the stderr diagnostic is
emitted exactly when one of BorderWidth/BorderStyle is set and the other
is not; but with BorderWidth = 0 and BorderStyle = "" and only
BorderColor set, `setStyle` still emits the diagnostic. -/
theorem claim1_counterexample :
    Call.borderWarn ∈ (setStyle {} { borderColor := "red" }).2 ∧
      ({ borderColor := "red" } : Options).borderWidth = 0 ∧
      ({ borderColor := "red" } : Options).borderStyle = "" := by
  decide

/-- Claim C1 (amended): `setStyle` applies the border (SetBorder2 with
the given width, style and color) exactly when BorderWidth ≠ 0 and
BorderStyle ≠ ""; the stderr diagnostic is emitted exactly when at least
one of the three border fields (BorderColor included) is set while not
both BorderWidth and BorderStyle are; in that case no border attribute
is applied, and in every case the remaining fields are still processed
and the call returns normally. -/
theorem claim1_border_rule (s : Style) (o : Options) :
    ((setStyle s o).1.border
        = if o.borderWidth ≠ 0 ∧ o.borderStyle ≠ "" then
            some (o.borderWidth, o.borderStyle, o.borderColor)
          else s.border) ∧
      (Call.setBorder2 o.borderWidth o.borderStyle o.borderColor ∈ (setStyle s o).2
        ↔ o.borderWidth ≠ 0 ∧ o.borderStyle ≠ "") ∧
      (Call.borderWarn ∈ (setStyle s o).2
        ↔ (o.borderWidth ≠ 0 ∨ o.borderStyle ≠ "" ∨ o.borderColor ≠ "") ∧
            ¬(o.borderWidth ≠ 0 ∧ o.borderStyle ≠ "")) ∧
      (setStyle s o).1.color = o.color ∧
      (setStyle s o).1.background = o.background ∧
      (setStyle s o).1.whiteSpace = o.whiteSpace ∧
      (setStyle s o).1.fontSize = o.fontSize := by
  unfold setStyle
  simp only [Style.setBorder2, Style.setFullWidth, Style.setWidth, Style.setFullHeight,
    Style.setColor, Style.setBackground, Style.setWhiteSpace, Style.setFontSize]
  split_ifs <;> simp_all

/-- Claim C2, failing evaluation: with a literal (non-reserved) Height
such as "30px" the source calls `SetFullHeight` (the height getter then
reads "100%") instead of `SetHeight("30px")`; the repository's own test
`checkStyle` asserts the height getter returns the literal. -/
theorem claim2_height_literal_bug :
    (setStyle {} { height := "30px" }).1.height = "100%" ∧
      Call.setFullHeight ∈ (setStyle {} { height := "30px" }).2 ∧
      Call.setHeight "30px" ∉ (setStyle {} { height := "30px" }).2 ∧
      "100%" ≠ "30px" := by
  decide

/-- Claim C3: `setStyle` leaves the color, background, white-space and
font-size attributes of a fresh widget at the built-in default whenever
the corresponding Options field is the empty string, independently of
every other field. -/
theorem claim3_empty_fields_untouched (o : Options) :
    (setStyle {} { o with color := "" }).1.color = ({} : Style).color ∧
      (setStyle {} { o with background := "" }).1.background = ({} : Style).background ∧
      (setStyle {} { o with whiteSpace := "" }).1.whiteSpace = ({} : Style).whiteSpace ∧
      (setStyle {} { o with fontSize := "" }).1.fontSize = ({} : Style).fontSize := by
  unfold setStyle
  simp [Style.setBorder2, Style.setFullWidth, Style.setWidth, Style.setFullHeight,
    Style.setColor, Style.setBackground, Style.setWhiteSpace, Style.setFontSize]

/-- Claim C5: applying `setStyle` with the all-zero Options to a fresh
widget leaves every queryable attribute at the built-in default, and
`MakeTable` with the all-zero Options yields the default table. -/
theorem claim5_all_defaults_noop :
    (setStyle {} ({} : Options)).1 = ({} : Style) ∧
      (makeTable ({} : Options)).1 = ({} : Table) := by
  decide

/-- Claim C6, failing evaluation: the round-trip property fails for the
Height field: after applying Options with Height "2em" the height getter
returns "100%", not "2em" (the same Height slip as in the sizing claim;
the repository's test `checkStyle` asserts the getter returns "2em"). -/
theorem claim6_roundtrip_height_bug :
    (setStyle {} { height := "2em" }).1.height = "100%" ∧ "100%" ≠ "2em" := by
  decide

/-- Claim C4, counterexample: the claim says a zero Rows/ColSpan/RowSpan
field causes no setter call in every make/format operation; but
`MakeListBox` calls `SetRows(0)` even for the all-zero Options, and
`FormatTableCell` calls `SetColSpan(0)` and `SetRowSpan(0)`
unconditionally. -/
theorem claim4_counterexample :
    ({} : Options).rows = 0 ∧
      Call.setRows 0 ∈ (makeListBox ["a"] {}).2 ∧
      Call.setColSpan 0 ∈ (formatTableCell {} {}).2 ∧
      Call.setRowSpan 0 ∈ (formatTableCell {} {}).2 := by
  decide

/-- Claim C4 (amended): `MakeTextBox` applies Rows and Cols only when the
field is non-zero, a zero value making no setter call and leaving the
constructed default; `MakeListBox` always calls `SetRows` with
options.Rows (even zero, which then becomes the row count); and
`FormatTableCell` always calls `SetColSpan` and `SetRowSpan` with the
field values, a zero span leaving the cell's default span in place. -/
theorem claim4_dimension_fields (o : Options) (text : String) (values : List String)
    (cell : Cell) :
    (Call.setRows o.rows ∈ (makeTextBox text o).2 ↔ o.rows ≠ 0) ∧
      (Call.setCols o.cols ∈ (makeTextBox text o).2 ↔ o.cols ≠ 0) ∧
      (makeTextBox text { o with rows := 0 }).1.rows = (newTextBox text).rows ∧
      (makeTextBox text { o with cols := 0 }).1.cols = (newTextBox text).cols ∧
      Call.setRows o.rows ∈ (makeListBox values o).2 ∧
      (makeListBox values o).1.rows = o.rows ∧
      Call.setColSpan o.colSpan ∈ (formatTableCell cell o).2 ∧
      Call.setRowSpan o.rowSpan ∈ (formatTableCell cell o).2 ∧
      (formatTableCell cell { o with colSpan := 0 }).1.colSpan = none ∧
      (formatTableCell cell { o with rowSpan := 0 }).1.rowSpan = none := by
  refine ⟨?_, ?_, ?_, ?_, ?_, ?_, ?_, ?_, ?_, ?_⟩
  · rw [makeTextBox_snd_eq]
    rcases o.enable <;> split_ifs <;>
      simp_all [setRows_not_in_style_calls (newTextBox text).style o]
  · rw [makeTextBox_snd_eq]
    rcases o.enable <;> split_ifs <;>
      simp_all [setCols_not_in_style_calls (newTextBox text).style o]
  · rw [makeTextBox_fst_eq]
    simp
  · rw [makeTextBox_fst_eq]
    simp
  · rw [makeListBox_snd_eq]
    simp
  · rw [makeListBox_fst_eq]
  · rw [formatTableCell_snd_eq]
    simp
  · rw [formatTableCell_snd_eq]
    simp
  · rw [formatTableCell_fst_eq]
    simp
  · rw [formatTableCell_fst_eq]
    simp

/-- Claim C7: applying `setStyle` (and `FormatTableCell`) with the same
Options twice in succession to the same widget yields the same observable
state as applying it once. -/
theorem claim7_idempotent (s : Style) (cell : Cell) (o : Options) :
    (setStyle (setStyle s o).1 o).1 = (setStyle s o).1 ∧
      (formatTableCell (formatTableCell cell o).1 o).1 = (formatTableCell cell o).1 := by
  constructor
  · simp only [setStyle_fst_eq]
    split_ifs <;> simp_all
  · simp only [formatTableCell_fst_eq, setStyle_fst_eq, Style.setPadding]
    split_ifs <;> simp_all

/-- Claim C8: on list boxes and text boxes an unspecified Enable makes no
enablement call and keeps the constructed default enabled state, while an
explicit EnableTrue/EnableFalse calls SetEnabled with exactly that value
and the enabled-state query then reports it, independently of the other
fields. -/
theorem claim8_enable (o : Options) (values : List String) (text : String) :
    (makeListBox values { o with enable := Enable.enableNil }).1.enabled
        = (newListBox values).enabled ∧
      (makeListBox values { o with enable := Enable.enableNil }).2.countP
        Call.isSetEnabledCall = 0 ∧
      (makeListBox values { o with enable := Enable.enableTrue }).1.enabled = true ∧
      Call.setEnabled true ∈ (makeListBox values { o with enable := Enable.enableTrue }).2 ∧
      (makeListBox values { o with enable := Enable.enableFalse }).1.enabled = false ∧
      Call.setEnabled false ∈ (makeListBox values { o with enable := Enable.enableFalse }).2 ∧
      (makeTextBox text { o with enable := Enable.enableNil }).1.enabled
        = (newTextBox text).enabled ∧
      (makeTextBox text { o with enable := Enable.enableNil }).2.countP
        Call.isSetEnabledCall = 0 ∧
      (makeTextBox text { o with enable := Enable.enableTrue }).1.enabled = true ∧
      Call.setEnabled true ∈ (makeTextBox text { o with enable := Enable.enableTrue }).2 ∧
      (makeTextBox text { o with enable := Enable.enableFalse }).1.enabled = false ∧
      Call.setEnabled false ∈ (makeTextBox text { o with enable := Enable.enableFalse }).2 := by
  refine ⟨?_, ?_, ?_, ?_, ?_, ?_, ?_, ?_, ?_, ?_, ?_, ?_⟩
  · rw [makeListBox_fst_eq]
    simp
  · rw [makeListBox_snd_eq]
    split_ifs <;>
      simp_all [Call.isSetEnabledCall, style_calls_no_setEnabled, List.countP_append]
  · rw [makeListBox_fst_eq]
    simp
  · rw [makeListBox_snd_eq]
    simp
  · rw [makeListBox_fst_eq]
    simp
  · rw [makeListBox_snd_eq]
    simp
  · rw [makeTextBox_fst_eq]
    simp
  · rw [makeTextBox_snd_eq]
    split_ifs <;>
      simp_all [Call.isSetEnabledCall, style_calls_no_setEnabled, List.countP_append]
  · rw [makeTextBox_fst_eq]
    simp
  · rw [makeTextBox_snd_eq]
    simp
  · rw [makeTextBox_fst_eq]
    simp
  · rw [makeTextBox_snd_eq]
    simp

/-- Claim C9: `MakePanel` maps an unspecified Layout to the default panel
constructor and each explicit Layout to exactly the corresponding
orientation-specific constructor, never calling SetLayout; `MakeTabPanel`
makes no SetLayout call for an unspecified Layout (keeping the
constructed default) and exactly one SetLayout call with the
corresponding gwu mode otherwise. -/
theorem claim9_panel_layout (o : Options) :
    (makePanel { o with layout := Layout.layoutNil }).1.ctor = PanelCtor.plain ∧
      (makePanel { o with layout := Layout.layoutNatural }).1.ctor = PanelCtor.natural ∧
      (makePanel { o with layout := Layout.layoutHorizontal }).1.ctor
        = PanelCtor.horizontal ∧
      (makePanel { o with layout := Layout.layoutVertical }).1.ctor = PanelCtor.vertical ∧
      (makePanel o).2.countP Call.isSetLayoutCall = 0 ∧
      (makeTabPanel { o with layout := Layout.layoutNil }).2.countP
        Call.isSetLayoutCall = 0 ∧
      (makeTabPanel { o with layout := Layout.layoutNil }).1.layout = tabPanelLayoutInit ∧
      (makeTabPanel { o with layout := Layout.layoutNatural }).1.layout = GLayout.natural ∧
      (makeTabPanel { o with layout := Layout.layoutNatural }).2.countP
        Call.isSetLayoutCall = 1 ∧
      Call.setLayout GLayout.natural
        ∈ (makeTabPanel { o with layout := Layout.layoutNatural }).2 ∧
      (makeTabPanel { o with layout := Layout.layoutHorizontal }).1.layout
        = GLayout.horizontal ∧
      (makeTabPanel { o with layout := Layout.layoutHorizontal }).2.countP
        Call.isSetLayoutCall = 1 ∧
      Call.setLayout GLayout.horizontal
        ∈ (makeTabPanel { o with layout := Layout.layoutHorizontal }).2 ∧
      (makeTabPanel { o with layout := Layout.layoutVertical }).1.layout
        = GLayout.vertical ∧
      (makeTabPanel { o with layout := Layout.layoutVertical }).2.countP
        Call.isSetLayoutCall = 1 ∧
      Call.setLayout GLayout.vertical
        ∈ (makeTabPanel { o with layout := Layout.layoutVertical }).2 := by
  refine ⟨?_, ?_, ?_, ?_, ?_, ?_, ?_, ?_, ?_, ?_, ?_, ?_, ?_, ?_, ?_, ?_⟩
  · rw [makePanel_fst_eq]
  · rw [makePanel_fst_eq]
  · rw [makePanel_fst_eq]
  · rw [makePanel_fst_eq]
  · rw [makePanel_snd_eq]
    split_ifs <;>
      simp_all [Call.isSetLayoutCall, style_calls_no_setLayout, List.countP_append]
  · rw [makeTabPanel_snd_eq]
    split_ifs <;>
      simp_all [Call.isSetLayoutCall, style_calls_no_setLayout, List.countP_append]
  · rw [makeTabPanel_fst_eq]
  · rw [makeTabPanel_fst_eq]
  · rw [makeTabPanel_snd_eq]
    split_ifs <;>
      simp_all [Call.isSetLayoutCall, style_calls_no_setLayout, List.countP_append]
  · rw [makeTabPanel_snd_eq]
    simp
  · rw [makeTabPanel_fst_eq]
  · rw [makeTabPanel_snd_eq]
    split_ifs <;>
      simp_all [Call.isSetLayoutCall, style_calls_no_setLayout, List.countP_append]
  · rw [makeTabPanel_snd_eq]
    simp
  · rw [makeTabPanel_fst_eq]
  · rw [makeTabPanel_snd_eq]
    split_ifs <;>
      simp_all [Call.isSetLayoutCall, style_calls_no_setLayout, List.countP_append]
  · rw [makeTabPanel_snd_eq]
    simp

/-- Claim C10: `MakeListBox` marks index 0 selected (SetSelected(0, true))
for every non-empty values slice and makes no selection call for the
empty slice, and in both cases `SetRows` is invoked with options.Rows,
even when Rows is zero. -/
theorem claim10_listbox_selection (o : Options) (v : String) (vs : List String) :
    Call.setSelected 0 true ∈ (makeListBox (v :: vs) o).2 ∧
      (0 : Int) ∈ (makeListBox (v :: vs) o).1.selectedIdxs ∧
      (makeListBox [] o).2.countP Call.isSetSelectedCall = 0 ∧
      Call.setRows o.rows ∈ (makeListBox (v :: vs) o).2 ∧
      Call.setRows o.rows ∈ (makeListBox [] o).2 := by
  refine ⟨?_, ?_, ?_, ?_, ?_⟩
  · rw [makeListBox_snd_eq]
    simp
  · rw [makeListBox_fst_eq]
    simp
  · rw [makeListBox_snd_eq]
    rcases o.enable <;> split_ifs <;>
      simp_all [Call.isSetSelectedCall, style_calls_no_setSelected, List.countP_append]
  · rw [makeListBox_snd_eq]
    simp
  · rw [makeListBox_snd_eq]
    simp

end Wgowut
